import Mathlib

/-!
Shallow embedding of the `paras-ink-marketplace` contract logic
(`src/logics/impls/marketplace/marketplace_sale.rs`) and proofs about it.

Machine integers: `Balance` is `u128`, modelled as `Nat`; wherever the Rust
code performs unchecked `u128` multiplication or addition, the embedding
takes the result modulo `2 ^ 128` (`U128MOD`). `checked_mul` / `checked_sub`
model the Rust `checked_*` operations as `Option Nat`. Rust
`.unwrap_or_default()` is `Option.getD 0`.

Maps: the ink `Mapping` storage type is embedded as an association list with
overwrite-on-insert (`mget` / `minsert` / `mremove`).

Results: `Outcome α` embeds Rust results, with `Outcome.trap` for an
`unwrap()` on `None` (an untyped abort of the whole call).

External collaborators (the PSP34 token registry, the native value
transfer of the host, the Ownable owner of a collection) are passed in as
oracle parameters, so each operation is a pure function of the storage
state, the call environment, and the collaborator answers.
-/

namespace Marketplace

abbrev AccountId : Type := Nat
abbrev Balance : Type := Nat
abbrev TokenId : Type := Nat
abbrev Hash : Type := Nat
abbrev NftContractType : Type := Nat

/-- The `u128` modulus: unchecked `u128` arithmetic wraps at this value. -/
def U128MOD : Nat := 2 ^ 128

/-- Lookup in an association-list map (ink `Mapping::get`). -/
def mget {K V : Type} [DecidableEq K] : List (K × V) → K → Option V
  | [], _ => none
  | (k, v) :: rest, key => if k = key then some v else mget rest key

/-- Overwrite-insert in an association-list map (ink `Mapping::insert`). -/
def minsert {K V : Type} [DecidableEq K] : List (K × V) → K → V → List (K × V)
  | [], key, val => [(key, val)]
  | (k, v) :: rest, key, val =>
      if k = key then (key, val) :: rest else (k, v) :: minsert rest key val

/-- Deletion in an association-list map (ink `Mapping::remove`). -/
def mremove {K V : Type} [DecidableEq K] : List (K × V) → K → List (K × V)
  | [], _ => []
  | (k, v) :: rest, key =>
      if k = key then mremove rest key else (k, v) :: mremove rest key

/-- A marketplace listing (`Item` in `types.rs`, as used by
`marketplace_sale.rs`: fields `owner` and `price`). -/
structure Item where
  owner : AccountId
  price : Balance
deriving DecidableEq

/-- A registered collection (`RegisteredCollection` in `types.rs`, as used
by `marketplace_sale.rs`: `royalty_receiver`, `royalty : u16`,
`marketplace_ipfs`). -/
structure RegisteredCollection where
  royalty_receiver : AccountId
  royalty : Nat
  marketplace_ipfs : String
deriving DecidableEq

/-- A standing offer (`OfferItem` in `types.rs`, as used by
`marketplace_sale.rs`): bidder, collection, optional token, `quantity : u64`,
`price_per_item : u128`, extra payload. -/
structure OfferItem where
  bidder_id : AccountId
  contract_address : AccountId
  token_id : Option TokenId
  quantity : Nat
  price_per_item : Balance
  extra : String
deriving DecidableEq

/-- Modelled from the spec: the error enum `MarketplaceError` lives in
`impls/marketplace/types.rs`, which is not among the sources. Its variants
are exactly those used by `marketplace_sale.rs` (the taxonomy of spec §7),
plus `OwnableError` embedding the failure of the openbrush
`#[modifiers(only_owner)]` guard, which `types.rs` must absorb via a
`From<OwnableError>` conversion for the guarded messages to type-check. -/
inductive MarketplaceError where
  | NotRegisteredContract
  | NotOwner
  | TokenDoesNotExist
  | TokenNotApproved
  | ItemNotListedForSale
  | AlreadyOwner
  | BadBuyValue
  | FeeTooHigh
  | ContractAlreadyRegistered
  | BalanceInsufficient
  | TransferToOwnerFailed
  | TransferToMarketplaceFailed
  | TransferToAuthorFailed
  | UnableToTransferToken
  | NftContractHashNotSet
  | OwnableError
deriving DecidableEq

/-- Result of a contract message: `ok` / `err` embed `Result`, and `trap`
embeds a Rust `unwrap()` on `None` — an abort without a typed error. -/
inductive Outcome (α : Type) where
  | ok (a : α)
  | err (e : MarketplaceError)
  | trap
deriving DecidableEq

/-- The contract storage: the `Data` struct of `types.rs` as used by
`marketplace_sale.rs` (fields `items`, `registered_collections`, `fee`,
`max_fee`, `market_fee_recipient`, `deposit`, `offer_items`,
`last_offer_id`, `nft_contract_hash`), together with the
`ownable::Data::owner` field used by `register` and the `only_owner`
modifier. -/
structure Data where
  items : List ((AccountId × TokenId) × Item)
  registered_collections : List (AccountId × RegisteredCollection)
  fee : Nat
  max_fee : Nat
  market_fee_recipient : Option AccountId
  deposit : List (AccountId × Balance)
  offer_items : List (Nat × OfferItem)
  last_offer_id : Nat
  nft_contract_hash : List (NftContractType × Hash)
  owner : AccountId
deriving DecidableEq

/-- Rust `u128::checked_mul`. -/
def checked_mul (a b : Nat) : Option Nat :=
  if a * b < U128MOD then some (a * b) else none

/-- Rust `u128::checked_sub`. -/
def checked_sub (a b : Nat) : Option Nat :=
  if b ≤ a then some (a - b) else none

/-- The `marketplace_fee` computation in `buy`:
`value.checked_mul(fee).unwrap_or_default() / 10_000`. -/
def marketplace_fee (value fee : Nat) : Nat :=
  (checked_mul value fee).getD 0 / 10000

/-- The `author_royalty` computation in `buy`:
`value.checked_mul(royalty).unwrap_or_default() / 10_000`. -/
def author_royalty (value royalty : Nat) : Nat :=
  (checked_mul value royalty).getD 0 / 10000

/-- The `seller_fee` computation in `buy`:
`value.checked_sub(mf).unwrap_or_default().checked_sub(ar).unwrap_or_default()`. -/
def seller_fee (value mf ar : Nat) : Nat :=
  (checked_sub ((checked_sub value mf).getD 0) ar).getD 0

/-- `Internal::check_price`: `ensure!(transferred_value >= price, BadBuyValue)`. -/
def check_price (transferred_value price : Balance) : Outcome Unit :=
  if transferred_value ≥ price then .ok () else .err .BadBuyValue

/-- `Internal::check_fee`: `ensure!(fee <= max_fee, FeeTooHigh)`. -/
def check_fee (fee max_fee : Nat) : Outcome Unit :=
  if fee ≤ max_fee then .ok () else .err .FeeTooHigh

/-- `Internal::get_deposit_internal`: `deposit.get(&account).unwrap_or(0)`. -/
def get_deposit_internal (s : Data) (account_id : AccountId) : Balance :=
  (mget s.deposit account_id).getD 0

/-- Collaborator answers consumed by `buy`: the PSP34 `owner_of` reply, the
PSP34 `transfer` result, and the success of each native value transfer
performed by the host (`Self::env().transfer(to, amount)`). -/
structure BuyEnv where
  owner_of : Option AccountId
  psp34_transfer_ok : Bool
  native_transfer_ok : AccountId → Balance → Bool

/-- Result of `buy`: the message result, the storage state after the call,
and the native payments performed, in order. -/
structure BuyResult where
  result : Outcome Unit
  state : Data
  payments : List (AccountId × Balance)

/-- `Internal::transfer_token`: PSP34 transfer of the token to the buyer,
then three native payments — seller amount to the token owner, marketplace
fee to `market_fee_recipient` (an `unwrap()`, so a trap when unset), and
the royalty to the royalty receiver. -/
def transfer_token (s : Data) (token_owner : AccountId)
    (sf mf : Balance) (royalty_receiver : AccountId) (ar : Balance)
    (env : BuyEnv) : Outcome Unit × List (AccountId × Balance) :=
  if env.psp34_transfer_ok then
    if env.native_transfer_ok token_owner sf then
      match s.market_fee_recipient with
      | none => (.trap, [(token_owner, sf)])
      | some recipient =>
        if env.native_transfer_ok recipient mf then
          if env.native_transfer_ok royalty_receiver ar then
            (.ok (), [(token_owner, sf), (recipient, mf), (royalty_receiver, ar)])
          else (.err .TransferToAuthorFailed, [(token_owner, sf), (recipient, mf)])
        else (.err .TransferToMarketplaceFailed, [(token_owner, sf)])
    else (.err .TransferToOwnerFailed, [])
  else (.err .UnableToTransferToken, [])

/-- `MarketplaceSale::buy` (the `non_reentrant` guard flag lives in a
separate openbrush storage struct and is set and cleared within the call;
it is not represented since the marketplace `Data` is never written by
`buy`): listing lookup, owner resolution, self-purchase check, price
check, collection lookup, three-way split, then `transfer_token`. -/
def buy (s : Data) (contract_address : AccountId) (token_id : TokenId)
    (caller : AccountId) (value : Balance) (env : BuyEnv) : BuyResult :=
  match mget s.items (contract_address, token_id) with
  | none => ⟨.err .ItemNotListedForSale, s, []⟩
  | some item =>
    match env.owner_of with
    | none => ⟨.err .TokenDoesNotExist, s, []⟩
    | some token_owner =>
      if token_owner = caller then ⟨.err .AlreadyOwner, s, []⟩
      else
        match check_price value item.price with
        | .ok _ =>
          match mget s.registered_collections contract_address with
          | none => ⟨.err .NotRegisteredContract, s, []⟩
          | some collection =>
            let mf := marketplace_fee value s.fee
            let ar := author_royalty value collection.royalty
            let sf := seller_fee value mf ar
            let r := transfer_token s token_owner sf mf collection.royalty_receiver ar env
            ⟨r.1, s, r.2⟩
        | _ => ⟨.err .BadBuyValue, s, []⟩

/-- `MarketplaceSale::register`: fee check, then the owner check (caller
must be the marketplace owner or the Ownable owner of the collection,
the latter an oracle answer `collection_owner`), then the
already-registered check, then the insert. -/
def register (s : Data) (contract_address royalty_receiver : AccountId)
    (royalty : Nat) (marketplace_ipfs : String)
    (caller collection_owner : AccountId) : Outcome Unit × Data :=
  match check_fee royalty s.max_fee with
  | .ok _ =>
    if s.owner ≠ caller ∧ collection_owner ≠ caller then (.err .NotOwner, s)
    else
      match mget s.registered_collections contract_address with
      | some _ => (.err .ContractAlreadyRegistered, s)
      | none =>
        let rc := minsert s.registered_collections contract_address
          ⟨royalty_receiver, royalty, marketplace_ipfs⟩
        (.ok (), { s with registered_collections := rc })
  | _ => (.err .FeeTooHigh, s)

/-- `MarketplaceSale::set_contract_metadata`, carrying the
`#[modifiers(only_owner)]` guard: non-owners fail in the guard; for the
owner, a missing collection fails with `NotRegisteredContract`, otherwise
the entry is re-inserted with the same royalty terms and the new ipfs. -/
def set_contract_metadata (s : Data) (contract_address : AccountId)
    (ipfs : String) (caller : AccountId) : Outcome Unit × Data :=
  if caller = s.owner then
    match mget s.registered_collections contract_address with
    | none => (.err .NotRegisteredContract, s)
    | some collection =>
      let rc := minsert s.registered_collections contract_address
        ⟨collection.royalty_receiver, collection.royalty, ipfs⟩
      (.ok (), { s with registered_collections := rc })
  else (.err .OwnableError, s)

/-- Result of `withdraw`: message result, storage state as the code left
it, and the native payments performed. -/
structure WithdrawResult where
  result : Outcome Unit
  state : Data
  payments : List (AccountId × Balance)

/-- `MarketplaceSale::withdraw`: balance check, debit, then the native
payment to the caller (`transfer_ok` is the host answer for that
payment; on its failure the typed error propagates and the host rolls the
whole transaction back). -/
def withdraw (s : Data) (amount : Balance) (caller : AccountId)
    (transfer_ok : Bool) : WithdrawResult :=
  let current_balance := (mget s.deposit caller).getD 0
  if current_balance < amount then ⟨.err .BalanceInsufficient, s, []⟩
  else
    let s1 := { s with deposit := minsert s.deposit caller (current_balance - amount) }
    if transfer_ok then ⟨.ok (), s1, [(caller, amount)]⟩
    else ⟨.err .TransferToOwnerFailed, s1, []⟩

/-- `MarketplaceSale::make_offer`: `quantity as u128 * price_per_item`
(unchecked `u128` product, taken mod `2 ^ 128`), the balance check, the
allocation of `last_offer_id + 1`, the insert, and then — as in the
source — the constant return value `Ok(1)`, not the allocated id. -/
def make_offer (s : Data) (contract_address : AccountId)
    (token_id : Option TokenId) (quantity : Nat) (price_per_item : Balance)
    (extra : String) (caller : AccountId) : Outcome Nat × Data :=
  let total_amount := quantity * price_per_item % U128MOD
  let dep := get_deposit_internal s caller
  if dep < total_amount then (.err .BalanceInsufficient, s)
  else
    let current_offer_id := (s.last_offer_id + 1) % U128MOD
    let oi := minsert s.offer_items current_offer_id
      ⟨caller, contract_address, token_id, quantity, price_per_item, extra⟩
    let s1 := { s with last_offer_id := current_offer_id, offer_items := oi }
    (.ok 1, s1)

/-- `MarketplaceSale::cancel_offer`: the source does
`offer_items.get(&offer_id).unwrap()`, so a missing offer traps; a caller
other than the bidder fails with `NotOwner`; the bidder removes the
offer. -/
def cancel_offer (s : Data) (offer_id : Nat) (caller : AccountId) :
    Outcome Unit × Data :=
  match mget s.offer_items offer_id with
  | none => (.trap, s)
  | some offer =>
    if offer.bidder_id ≠ caller then (.err .NotOwner, s)
    else (.ok (), { s with offer_items := mremove s.offer_items offer_id })

/-- `MarketplaceSale::get_offer_active`: false when the offer is missing;
otherwise compares the deposit of the current caller (not the stored
bidder) with the unchecked `u128` product `quantity * price_per_item`. -/
def get_offer_active (s : Data) (offer_id : Nat) (caller : AccountId) : Bool :=
  match mget s.offer_items offer_id with
  | none => false
  | some offer =>
    let dep := get_deposit_internal s caller
    let total_amount := offer.quantity * offer.price_per_item % U128MOD
    decide (dep ≥ total_amount)

/-- `Internal::get_nft_contract_hash`: typed lookup of the stored hash. -/
def get_nft_contract_hash (s : Data) (contract_type : NftContractType) :
    Outcome Hash :=
  match mget s.nft_contract_hash contract_type with
  | some h => .ok h
  | none => .err .NftContractHashNotSet

/-- `MarketplaceSale::nft_contract_hash`: the public getter calls
`get_nft_contract_hash(..).unwrap()`, so the typed
`NftContractHashNotSet` error becomes an untyped trap. -/
def nft_contract_hash (s : Data) (contract_type : NftContractType) :
    Outcome Hash :=
  match get_nft_contract_hash s contract_type with
  | .ok h => .ok h
  | _ => .trap

/-- `MarketplaceSale::set_nft_contract_hash`, carrying the
`#[modifiers(only_owner)]` guard, then the insert. -/
def set_nft_contract_hash (s : Data) (contract_type : NftContractType)
    (contract_hash : Hash) (caller : AccountId) : Outcome Unit × Data :=
  if caller = s.owner then
    let nh := minsert s.nft_contract_hash contract_type contract_hash
    (.ok (), { s with nft_contract_hash := nh })
  else (.err .OwnableError, s)

/-- An empty storage state used as the base of the concrete test states. -/
def emptyData : Data :=
  { items := [], registered_collections := [], fee := 0, max_fee := 1000,
    market_fee_recipient := none, deposit := [], offer_items := [],
    last_offer_id := 0, nft_contract_hash := [], owner := 1 }

/-- Concrete state for the withdraw scenario: account 1 holds a deposit
of 500. -/
def sW : Data := { emptyData with deposit := [(1, 500)] }

/-- Concrete state for the make_offer scenario: one offer was already
issued (`last_offer_id = 1`) and account 7 holds a deposit of 1000. -/
def s2 : Data :=
  { emptyData with deposit := [(7, 1000)], last_offer_id := 1,
                   offer_items := [(1, ⟨7, 5, none, 1, 10, "a"⟩)] }

/-- Concrete state for the register scenario: collection 5 is already
registered; the marketplace owner is account 1. -/
def s3 : Data :=
  { emptyData with registered_collections := [(5, ⟨2, 100, "x"⟩)] }

/-- Concrete state for the buy overflow scenario: listing for token 1 of
collection 5 at price 0 by account 2, collection 5 registered with zero
royalty, marketplace fee 16 basis points, fee recipient set to 9. -/
def s5 : Data :=
  { emptyData with items := [((5, 1), ⟨2, 0⟩)],
                   registered_collections := [(5, ⟨4, 0, ""⟩)],
                   fee := 16, max_fee := 10000,
                   market_fee_recipient := some 9 }

/-- Collaborator answers for the buy overflow scenario: the token owner is
account 2 and every transfer succeeds. -/
def env5 : BuyEnv := ⟨some 2, true, fun _ _ => true⟩

/-- Concrete offer whose unchecked `u128` total wraps to zero:
`quantity * price_per_item = 2 ^ 63 * 2 ^ 65 = 2 ^ 128 ≡ 0`. -/
def offer8 : OfferItem := ⟨2, 5, none, 2 ^ 63, 2 ^ 65, ""⟩

/-- Concrete state holding `offer8` under id 1, with no deposits. -/
def s8 : Data := { emptyData with offer_items := [(1, offer8)] }

/-- Concrete state for the cancel_offer scenario: offer 1 by bidder 2. -/
def s9 : Data := { emptyData with offer_items := [(1, ⟨2, 5, none, 1, 10, ""⟩)] }

theorem mget_minsert_self {K V : Type} [DecidableEq K]
    (m : List (K × V)) (k : K) (v : V) : mget (minsert m k v) k = some v := by
  induction m with
  | nil => simp [minsert, mget]
  | cons p rest ih =>
    by_cases h : p.1 = k
    · simp [minsert, h, mget]
    · simp [minsert, h, mget, ih]

/-- C1 counterexample: with `max_fee_bps = 65535`, `fee_bps = royalty_bps
= 65535 ≤ max_fee_bps` and `value = 10000`, the code computes
`marketplace_fee = author_royalty = 65535` and a saturated
`seller_amount = 0`, so the three parts sum to 131070, not to the value
10000 — the claimed identity fails because `fee_bps + royalty_bps` is
never validated to stay within 10000 basis points. -/
theorem buy_split_claim_false :
    (65535 : Nat) ≤ 65535 ∧
    marketplace_fee 10000 65535 + author_royalty 10000 65535 +
      seller_fee 10000 (marketplace_fee 10000 65535)
        (author_royalty 10000 65535) ≠ 10000 := by
  decide

/-- C1 (amended): whenever `value * fee_bps` and `value * royalty_bps` fit
in `u128` (so the `checked_mul` succeeds) and `fee_bps + royalty_bps ≤
10000`, the split computed by `buy` satisfies `marketplace_fee = value *
fee_bps / 10000`, `author_royalty = value * royalty_bps / 10000`,
`seller_amount = value - marketplace_fee - author_royalty`, and the three
parts sum exactly to `value`; every part is a `Nat`, hence nonnegative. -/
theorem buy_split_correct (value fee roy : Nat)
    (hf : value * fee < U128MOD) (hr : value * roy < U128MOD)
    (hbps : fee + roy ≤ 10000) :
    marketplace_fee value fee = value * fee / 10000 ∧
    author_royalty value roy = value * roy / 10000 ∧
    seller_fee value (marketplace_fee value fee) (author_royalty value roy) =
      value - marketplace_fee value fee - author_royalty value roy ∧
    marketplace_fee value fee + author_royalty value roy +
      seller_fee value (marketplace_fee value fee) (author_royalty value roy) =
      value := by
  have hmf : marketplace_fee value fee = value * fee / 10000 := by
    simp [marketplace_fee, checked_mul, hf]
  have har : author_royalty value roy = value * roy / 10000 := by
    simp [author_royalty, checked_mul, hr]
  have h1 := Nat.div_mul_le_self (value * fee) 10000
  have h2 := Nat.div_mul_le_self (value * roy) 10000
  have hmul : (value * fee / 10000 + value * roy / 10000) * 10000 ≤
      value * 10000 := by
    calc (value * fee / 10000 + value * roy / 10000) * 10000
        = value * fee / 10000 * 10000 + value * roy / 10000 * 10000 := by ring
      _ ≤ value * fee + value * roy := Nat.add_le_add h1 h2
      _ = value * (fee + roy) := by ring
      _ ≤ value * 10000 := Nat.mul_le_mul_left value hbps
  have hle : value * fee / 10000 + value * roy / 10000 ≤ value :=
    Nat.le_of_mul_le_mul_right hmul (by norm_num)
  have hsf : seller_fee value (marketplace_fee value fee)
      (author_royalty value roy) =
      value - marketplace_fee value fee - author_royalty value roy := by
    rw [hmf, har]
    have hmle : value * fee / 10000 ≤ value := by omega
    have harle : value * roy / 10000 ≤ value - value * fee / 10000 := by omega
    simp [seller_fee, checked_sub, hmle, harle]
  refine ⟨hmf, har, hsf, ?_⟩
  rw [hmf, har] at hsf ⊢
  rw [hsf]
  omega

/-- C1 witness: the spec scenario — value 1000, marketplace fee 250 bps,
royalty 500 bps — gives the split 25 / 50 / 925, summing to 1000. -/
theorem buy_split_correct_witness :
    marketplace_fee 1000 250 + author_royalty 1000 500 +
      seller_fee 1000 (marketplace_fee 1000 250) (author_royalty 1000 500) =
      1000 :=
  (buy_split_correct 1000 250 500 (by decide) (by decide)
    (by decide)).2.2.2

/-- C2: in state `s2` one offer (id 1) was already issued; a successful
`make_offer` by account 7 allocates and stores offer id 2 (and bumps
`last_offer_id` to 2), yet the message returns the constant `Ok(1)` — an
id that is not strictly greater than the previously issued id 1. The
balance check passed (deposit 1000 ≥ 1 * 10). -/
theorem make_offer_stale_return_id :
    (make_offer s2 5 none 1 10 "b" 7).1 = Outcome.ok 1 ∧
    (make_offer s2 5 none 1 10 "b" 7).2.last_offer_id = 2 ∧
    mget (make_offer s2 5 none 1 10 "b" 7).2.offer_items 2 =
      some ⟨7, 5, none, 1, 10, "b"⟩ ∧
    ¬ 1 < (1 : Nat) := by
  decide

/-- C3 counterexample: in state `s3` collection 5 is registered, yet a
caller (account 3) that is neither the marketplace owner (account 1) nor
the collection owner (oracle answer: account 4) gets `NotOwner`, not
`ContractAlreadyRegistered` — the owner check runs before the
already-registered check. -/
theorem register_registered_not_always_already :
    (mget s3.registered_collections 5).isSome = true ∧
    (register s3 5 2 100 "y" 3 4).1 = Outcome.err MarketplaceError.NotOwner ∧
    (register s3 5 2 100 "y" 3 4).1 ≠
      Outcome.err MarketplaceError.ContractAlreadyRegistered := by
  decide

/-- C3 (amended): `register` on an already-registered collection always
fails and leaves the state unchanged, for every caller and royalty; the
error is `ContractAlreadyRegistered` precisely when the earlier guards
pass, i.e. when `royalty ≤ max_fee` and the caller is the marketplace
owner or the collection owner — otherwise `FeeTooHigh` or `NotOwner`
fires first. -/
theorem register_already_registered_spec (s : Data)
    (ca rr : AccountId) (roy : Nat) (ipfs : String)
    (caller cown : AccountId)
    (hreg : (mget s.registered_collections ca).isSome = true) :
    (register s ca rr roy ipfs caller cown).2 = s ∧
    (∀ u, (register s ca rr roy ipfs caller cown).1 ≠ Outcome.ok u) ∧
    (roy ≤ s.max_fee → (caller = s.owner ∨ caller = cown) →
      (register s ca rr roy ipfs caller cown).1 =
        Outcome.err MarketplaceError.ContractAlreadyRegistered) := by
  obtain ⟨c, hc⟩ := Option.isSome_iff_exists.mp hreg
  by_cases h1 : roy ≤ s.max_fee
  · by_cases h2 : s.owner ≠ caller ∧ cown ≠ caller
    · refine ⟨?_, ?_, ?_⟩
      · simp [register, check_fee, h1, h2]
      · simp [register, check_fee, h1, h2]
      · intro _ hor
        rcases hor with h | h <;> simp [h] at h2
    · refine ⟨?_, ?_, ?_⟩
      · simp [register, check_fee, h1, h2, hc]
      · simp [register, check_fee, h1, h2, hc]
      · intro _ _
        simp [register, check_fee, h1, h2, hc]
  · refine ⟨?_, ?_, ?_⟩
    · simp [register, check_fee, h1]
    · simp [register, check_fee, h1]
    · intro h _
      exact absurd h h1

/-- C3 witness: the marketplace owner (account 1) re-registering the
already-registered collection 5 of state `s3` with royalty 100 ≤ max_fee
1000 gets `ContractAlreadyRegistered`. -/
theorem register_already_registered_spec_witness :
    (register s3 5 2 100 "y" 1 4).1 =
      Outcome.err MarketplaceError.ContractAlreadyRegistered :=
  (register_already_registered_spec s3 5 2 100 "y" 1 4 (by decide)).2.2
    (by decide) (Or.inl (by decide))

/-- C4: `withdraw` fails with `BalanceInsufficient` exactly when the
requested amount exceeds the deposit balance of the caller, leaving the
state unchanged in that case; on success the new balance of the caller is
the old balance minus the amount and the only payment performed is the
amount, to the caller. -/
theorem withdraw_spec (s : Data) (caller : AccountId) (amount : Balance)
    (tok : Bool) :
    ((withdraw s amount caller tok).result =
        Outcome.err MarketplaceError.BalanceInsufficient ↔
      get_deposit_internal s caller < amount) ∧
    ((withdraw s amount caller tok).result =
        Outcome.err MarketplaceError.BalanceInsufficient →
      (withdraw s amount caller tok).state = s) ∧
    ((withdraw s amount caller tok).result = Outcome.ok () →
      get_deposit_internal (withdraw s amount caller tok).state caller =
        get_deposit_internal s caller - amount ∧
      (withdraw s amount caller tok).payments = [(caller, amount)]) := by
  unfold withdraw
  by_cases h : (mget s.deposit caller).getD 0 < amount
  · simp [h, get_deposit_internal]
  · simp only [h, if_false]
    cases tok with
    | true =>
      refine ⟨?_, ?_, ?_⟩
      · simp [get_deposit_internal, h]
      · simp
      · intro _
        simp [get_deposit_internal, mget_minsert_self]
    | false => simp [get_deposit_internal, h]

/-- C4 witness: the spec scenario — deposit 500, withdraw 600 — fails
with `BalanceInsufficient` and leaves the state unchanged. -/
theorem withdraw_spec_witness :
    (withdraw sW 600 1 true).result =
      Outcome.err MarketplaceError.BalanceInsufficient ∧
    (withdraw sW 600 1 true).state = sW := by
  have h := withdraw_spec sW 1 600 true
  exact ⟨h.1.mpr (by decide), h.2.1 (h.1.mpr (by decide))⟩

/-- C5: in `buy`, `checked_mul` overflow is absorbed by
`.unwrap_or_default()` instead of failing the call: with transferred
value `2 ^ 124` and a marketplace fee of 16 basis points the product is
exactly `2 ^ 128`, `checked_mul` returns `None`, the marketplace fee
silently becomes 0, and the purchase in state `s5` still succeeds,
paying 0 to the fee recipient (account 9). -/
theorem buy_overflow_zero_fee :
    checked_mul (2 ^ 124) 16 = none ∧
    marketplace_fee (2 ^ 124) 16 = 0 ∧
    (buy s5 5 1 3 (2 ^ 124) env5).result = Outcome.ok () ∧
    (buy s5 5 1 3 (2 ^ 124) env5).payments = [(2, 2 ^ 124), (9, 0), (4, 0)] := by
  decide

/-- C6 counterexample: `set_contract_metadata` carries an `only_owner`
guard, contrary to the claim that it performs no owner check: in state
`s3` collection 5 is registered, yet caller 3 (not the marketplace owner
1) fails in the guard and the metadata is not replaced. -/
theorem set_contract_metadata_owner_gate_cex :
    (mget s3.registered_collections 5).isSome = true ∧
    (set_contract_metadata s3 5 "y" 3).1 =
      Outcome.err MarketplaceError.OwnableError ∧
    (set_contract_metadata s3 5 "y" 3).2 = s3 := by
  decide

/-- C6 (amended): `set_contract_metadata` is owner-gated: a caller other
than the marketplace owner fails in the `only_owner` guard with the state
unchanged; the owner gets `NotRegisteredContract` when the collection is
absent (state unchanged), and otherwise the call succeeds and re-inserts
the entry with the same `royalty_receiver` and `royalty` and the new
metadata uri, touching no other storage field. -/
theorem set_contract_metadata_spec (s : Data) (ca : AccountId)
    (ipfs : String) (caller : AccountId) :
    (caller ≠ s.owner →
      set_contract_metadata s ca ipfs caller =
        (Outcome.err MarketplaceError.OwnableError, s)) ∧
    (caller = s.owner → mget s.registered_collections ca = none →
      set_contract_metadata s ca ipfs caller =
        (Outcome.err MarketplaceError.NotRegisteredContract, s)) ∧
    (∀ c, caller = s.owner → mget s.registered_collections ca = some c →
      set_contract_metadata s ca ipfs caller =
        (Outcome.ok (), { s with registered_collections := minsert s.registered_collections ca ⟨c.royalty_receiver, c.royalty, ipfs⟩ })) := by
  refine ⟨?_, ?_, ?_⟩
  · intro h
    simp [set_contract_metadata, h]
  · intro h hm
    simp [set_contract_metadata, h, hm]
  · intro c h hm
    simp [set_contract_metadata, h, hm]

/-- C6 witness: the marketplace owner (account 1) of state `s3` replaces
the metadata of collection 5, preserving the royalty terms 2 / 100. -/
theorem set_contract_metadata_spec_witness :
    set_contract_metadata s3 5 "y" 1 =
      (Outcome.ok (), { s3 with registered_collections := minsert s3.registered_collections 5 ⟨2, 100, "y"⟩ }) :=
  (set_contract_metadata_spec s3 5 "y" 1).2.2 ⟨2, 100, "x"⟩ (by decide)
    (by decide)

/-- C7: `buy` performs no write to the marketplace storage at all — in
particular the listing book `items` after any `buy` call, successful or
not, is exactly the listing book before it, so a successful purchase
never removes or modifies the listing entry it bought. -/
theorem buy_preserves_listings (s : Data) (ca : AccountId) (tid : TokenId)
    (caller : AccountId) (value : Balance) (env : BuyEnv) :
    (buy s ca tid caller value env).state.items = s.items := by
  unfold buy
  repeat' split
  all_goals rfl

/-- C8 counterexample: the unchecked `u128` product in
`get_offer_active` wraps: offer `offer8` has `quantity * price_per_item =
2 ^ 128`, which wraps to 0, so in state `s8` a caller (account 3) with a
deposit of 0 sees the offer as active even though its deposit is far
below the real total `2 ^ 128`. -/
theorem get_offer_active_overflow_cex :
    get_offer_active s8 1 3 = true ∧
    get_deposit_internal s8 3 = 0 ∧
    mget s8.offer_items 1 = some offer8 ∧
    ¬ offer8.quantity * offer8.price_per_item ≤ get_deposit_internal s8 3 := by
  decide

/-- C8 (amended): `get_offer_active` returns false when the offer is
absent; when the offer exists it returns true exactly when the deposit
balance of the current caller (not of the stored bidder) is at least the
wrapping `u128` product `quantity * price_per_item % 2 ^ 128` — which
coincides with the claimed product whenever it fits in `u128`. -/
theorem get_offer_active_spec (s : Data) (oid : Nat) (caller : AccountId) :
    (mget s.offer_items oid = none → get_offer_active s oid caller = false) ∧
    (∀ o, mget s.offer_items oid = some o →
      (get_offer_active s oid caller = true ↔
        o.quantity * o.price_per_item % U128MOD ≤
          get_deposit_internal s caller)) := by
  constructor
  · intro h
    simp [get_offer_active, h]
  · intro o h
    simp [get_offer_active, h, ge_iff_le]

/-- C8 witness: in state `s8` the stored offer 1 is reported active to
caller 3. -/
theorem get_offer_active_spec_witness : get_offer_active s8 1 3 = true :=
  ((get_offer_active_spec s8 1 3).2 offer8 (by decide)).mpr (by decide)

/-- C9: `cancel_offer` on a missing offer id traps in the `unwrap()`
instead of returning a typed error (state unchanged); a caller other than
the bidder gets `NotOwner` with the offer left in place; the bidder
(account 2 in state `s9`) deletes the offer. -/
theorem cancel_offer_behaviour :
    (cancel_offer s9 42 2).1 = Outcome.trap ∧
    (cancel_offer s9 42 2).2 = s9 ∧
    (cancel_offer s9 1 3).1 = Outcome.err MarketplaceError.NotOwner ∧
    (cancel_offer s9 1 3).2 = s9 ∧
    (cancel_offer s9 1 2).1 = Outcome.ok () ∧
    mget (cancel_offer s9 1 2).2.offer_items 1 = none := by
  decide

/-- C10: the public getter `nft_contract_hash` traps (aborts in
`unwrap()` on the internal `NftContractHashNotSet` error) when no hash is
stored for the contract type, returns `ok h` exactly when `h` is the
stored hash, and returns the hash just stored by `set_nft_contract_hash`
(called by the owner, as its `only_owner` guard requires). -/
theorem nft_contract_hash_spec (s : Data) (t : NftContractType) :
    (mget s.nft_contract_hash t = none →
      nft_contract_hash s t = Outcome.trap) ∧
    (∀ h, nft_contract_hash s t = Outcome.ok h ↔
      mget s.nft_contract_hash t = some h) ∧
    (∀ h, nft_contract_hash (set_nft_contract_hash s t h s.owner).2 t =
      Outcome.ok h) := by
  refine ⟨?_, ?_, ?_⟩
  · intro h
    simp [nft_contract_hash, get_nft_contract_hash, h]
  · intro h
    cases hm : mget s.nft_contract_hash t with
    | none => simp [nft_contract_hash, get_nft_contract_hash, hm]
    | some h0 => simp [nft_contract_hash, get_nft_contract_hash, hm]
  · intro h
    simp [set_nft_contract_hash, nft_contract_hash, get_nft_contract_hash,
      mget_minsert_self]

/-- C10 witness: on the empty state the getter traps for contract type 0,
and after the owner stores hash 77 the getter returns it. -/
theorem nft_contract_hash_spec_witness :
    nft_contract_hash emptyData 0 = Outcome.trap ∧
    nft_contract_hash (set_nft_contract_hash emptyData 0 77 emptyData.owner).2 0 =
      Outcome.ok 77 :=
  ⟨(nft_contract_hash_spec emptyData 0).1 (by decide),
    (nft_contract_hash_spec emptyData 0).2.2 77⟩

end Marketplace
